import Mathlib

/-!
Verification of the `brian` sidecar supervisor
(`src/src-tauri/src/lib.rs`), as a shallow embedding in Lean 4.

The Rust file has four components: a port resolver (`read_backend_port`),
a process supervisor (spawn, store handle, terminate on window destroy),
an output relay task over `CommandEvent`s, and a health-probing task that
polls `http://127.0.0.1:<port>/health` up to 30 times.  Each is embedded
below as a pure Lean function; the effectful parts (filesystem, HTTP,
process handles) show up as explicit parameters recording the outcome the
environment would supply.
-/

namespace Brian

/-! ## Port Resolver (`read_backend_port`, lib.rs lines 12-21) -/

/-- Unicode `White_Space` property, as used by the Rust `str::trim` function
(`char::is_whitespace`). -/
def isRustWhitespace (c : Char) : Bool :=
  c = ' ' || c = '\t' || c = '\n' || c = '\r' ||
  c.toNat = 0x0B || c.toNat = 0x0C || c.toNat = 0x85 || c.toNat = 0xA0 ||
  c.toNat = 0x1680 || (0x2000 ≤ c.toNat && c.toNat ≤ 0x200A) ||
  c.toNat = 0x2028 || c.toNat = 0x2029 || c.toNat = 0x202F ||
  c.toNat = 0x205F || c.toNat = 0x3000

/-- Rust `str::trim`: remove leading and trailing whitespace characters. -/
def trimChars (s : List Char) : List Char :=
  ((s.dropWhile isRustWhitespace).reverse.dropWhile isRustWhitespace).reverse

/-- Value of a digit string under base 10 (accumulator form, matching the
digit-by-digit accumulation of the Rust `from_str_radix` loop). -/
def digitsToNat (s : List Char) : Nat :=
  s.foldl (fun a c => a * 10 + (c.toNat - 48)) 0

/-- Rust `str::parse::<u16>` (`u16::from_str`): an optional leading `+`
sign (a `-` sign is rejected for unsigned types), then one or more ASCII
digits; the value must fit in 16 bits, otherwise the parse overflows and
errors.  Returns the parsed value as a `Nat` below 65536.
`stripSign` is the sign-handling step: it removes a leading `+`; a
leading `-` is left in place and then fails the digit check, as in Rust,
where a `-` on an unsigned type is an immediate `InvalidDigit` error. -/
def stripSign : List Char → List Char
  | '+' :: rest => rest
  | s => s

/-- Digit scan and accumulation of `u16::from_str`; see `stripSign`. -/
def parseU16 (s : List Char) : Option Nat :=
  let digits := stripSign s
  if digits = [] then none
  else if digits.all Char.isDigit then
    let v := digitsToNat digits
    if v < 65536 then some v else none
  else none

/-- The filesystem state `read_backend_port` depends on: whether
`dirs::home_dir()` resolves, and the contents of `<home>/.brian/port`
(`none` when the file is missing or unreadable).  When the home directory
does not resolve, the Rust code reads the default (empty) path, which
always fails. -/
structure Fs where
  homeDir : Bool
  portFileContent : Option (List Char)
deriving DecidableEq, Repr

/-- The function `read_backend_port` (lib.rs lines 12-21): read `<home>/.brian/port`,
trim, parse as `u16`, and fall back to 8080 on any failure. -/
def read_backend_port (fs : Fs) : Nat :=
  let contents : Option (List Char) :=
    if fs.homeDir then fs.portFileContent else none
  match contents with
  | some s => (parseU16 (trimChars s)).getD 8080
  | none => 8080

/-! ## Health Prober (lib.rs lines 94-143)

The health-check task sleeps 2 seconds (warm-up), reads a baseline port,
then loops `attempt = 1..=30`.  Each attempt re-reads the port file,
builds `http://127.0.0.1:<port>/health`, issues a GET, and classifies the
reqwest outcome: `Ok(resp)` with a 2xx status emits `backend-ready(port)`
and returns; any other outcome logs a warning, sleeps the 1-second retry
delay, and continues.  After the loop, it emits one
`backend-error("backend health check failed after 30 retries")`.

The environment is captured by two functions: `portAt n` is the value
`read_backend_port()` returns on attempt `n` (the file may change between
attempts), and `outcome n` is the result of the GET on attempt `n`
(`Except.error e` being a reqwest transport error with message `e`).
Log writes are observational and not recorded. -/

/-- An HTTP response as the prober sees it: only the status code matters. -/
structure HttpResponse where
  status : Nat
deriving DecidableEq, Repr

/-- reqwest `StatusCode::is_success`: status in 200..=299. -/
def isSuccessStatus (s : Nat) : Bool := 200 ≤ s && s < 300

/-- The URL built by `format!("http://127.0.0.1:{}/health", port)`. -/
def healthUrl (port : Nat) : String :=
  "http://127.0.0.1:" ++ toString port ++ "/health"

/-- A notification emitted to the UI sink via `emit`: `backend-ready`
with the port, or `backend-error` with a message. -/
inductive Notif
  | ready (port : Nat)
  | error (msg : String)
deriving DecidableEq, Repr

/-- One probe attempt: the port read for it and the URL requested. -/
structure ProbeAttempt where
  port : Nat
  url : String
deriving DecidableEq, Repr

/-- Trace of one run of the health-check task: the attempts performed in
order, the number of `RETRY_DELAY` (1 s) sleeps awaited, and the
notifications emitted.  The fixed 2-second warm-up sleep before the first
attempt is unconditional and not counted in `sleeps`. -/
structure ProberRun where
  attempts : List ProbeAttempt
  sleeps : Nat
  notifs : List Notif
deriving DecidableEq, Repr

/-- The `MAX_RETRIES` constant in the health-check task. -/
def MAX_RETRIES : Nat := 30

/-- The `for attempt in 1..=MAX_RETRIES` loop, by recursion on the number
of remaining attempts (`fuel`); `attempt` is the 1-based index of the
next attempt.  When fuel runs out the loop body after the `for` runs:
log an error and emit the failure notification. -/
def healthAttempts (portAt : Nat → Nat)
    (outcome : Nat → Except String HttpResponse) :
    Nat → Nat → ProberRun
  | _, 0 =>
    { attempts := [], sleeps := 0,
      notifs := [.error "backend health check failed after 30 retries"] }
  | attempt, fuel + 1 =>
    let port := portAt attempt
    let this : ProbeAttempt := ⟨port, healthUrl port⟩
    match outcome attempt with
    | .ok resp =>
      if isSuccessStatus resp.status then
        { attempts := [this], sleeps := 0, notifs := [.ready port] }
      else
        let rest := healthAttempts portAt outcome (attempt + 1) fuel
        { attempts := this :: rest.attempts, sleeps := rest.sleeps + 1,
          notifs := rest.notifs }
    | .error _ =>
      let rest := healthAttempts portAt outcome (attempt + 1) fuel
      { attempts := this :: rest.attempts, sleeps := rest.sleeps + 1,
        notifs := rest.notifs }

/-- The whole health-check task (after the warm-up sleep and baseline
port read, neither of which affects the trace: the loop re-reads the port
at the top of every attempt and probes that value). -/
def runHealthCheck (portAt : Nat → Nat)
    (outcome : Nat → Except String HttpResponse) : ProberRun :=
  healthAttempts portAt outcome 1 MAX_RETRIES

/-- The GET on attempt `n` fails: a transport error, or a response whose
status is not 2xx. -/
def probeFails (outcome : Nat → Except String HttpResponse) (n : Nat) : Prop :=
  ∀ resp, outcome n = .ok resp → isSuccessStatus resp.status = false

/-! ## Output Relay (lib.rs lines 64-89)

The relay task drains the `CommandEvent` receiver: `Stdout`/`Stderr`
lines are decoded with `String::from_utf8_lossy` and logged; `Terminated`
logs a warning with the payload, emits one
`backend-error("sidecar process terminated unexpectedly")` and breaks out
of the loop; `Error` (a spawn error surfacing mid-stream) is logged at
error level and the loop continues; any other variant is ignored.

`String::from_utf8_lossy` is Rust standard-library code, not part of this
repository; it is kept abstract as a `decode` parameter from byte lists
to strings. -/

/-- Payload of `CommandEvent::Terminated` (exit code and signal). -/
structure TerminatedPayload where
  code : Option Int
  signal : Option Int
deriving DecidableEq, Repr

/-- The `tauri_plugin_shell::process::CommandEvent` type, with byte payloads as
`List Nat`; `other` stands for any variant the `match` ignores via its
catch-all arm. -/
inductive CommandEvent
  | stdout (line : List Nat)
  | stderr (line : List Nat)
  | terminated (status : TerminatedPayload)
  | error (msg : String)
  | other
deriving DecidableEq, Repr

/-- Whether an event is the `Terminated` variant. -/
def CommandEvent.isTerminated : CommandEvent → Bool
  | .terminated _ => true
  | _ => false

/-- Rust `{:?}` rendering of an `Option<i32>` field. -/
def fmtOptInt : Option Int → String
  | some n => "Some(" ++ toString n ++ ")"
  | none => "None"

/-- Rust `{:?}` rendering of a `TerminatedPayload`. -/
def fmtTerminated (st : TerminatedPayload) : String :=
  "TerminatedPayload \x7b code: " ++ fmtOptInt st.code ++
    ", signal: " ++ fmtOptInt st.signal ++ " \x7d"

/-- A line written to the application log, with its level. -/
inductive LogEntry
  | info (s : String)
  | warn (s : String)
  | error (s : String)
deriving DecidableEq, Repr

/-- Trace of one run of the relay task: the log lines written, the
notifications emitted, and the number of events consumed from the
receiver (events after a `break` are not consumed). -/
structure RelayRun where
  logs : List LogEntry
  notifs : List Notif
  consumed : Nat
deriving DecidableEq, Repr

/-- The relay loop over the event feed, in arrival order. -/
def relay (decode : List Nat → String) : List CommandEvent → RelayRun
  | [] => ⟨[], [], 0⟩
  | e :: rest =>
    match e with
    | .stdout line =>
      let r := relay decode rest
      ⟨.info ("[brian-backend] " ++ decode line) :: r.logs, r.notifs,
        r.consumed + 1⟩
    | .stderr line =>
      let r := relay decode rest
      ⟨.error ("[brian-backend] " ++ decode line) :: r.logs, r.notifs,
        r.consumed + 1⟩
    | .terminated status =>
      ⟨[.warn ("[brian-backend] process terminated with status: " ++
          fmtTerminated status)],
        [.error "sidecar process terminated unexpectedly"], 1⟩
    | .error msg =>
      let r := relay decode rest
      ⟨.error ("[brian-backend] error: " ++ msg) :: r.logs, r.notifs,
        r.consumed + 1⟩
    | .other =>
      let r := relay decode rest
      ⟨r.logs, r.notifs, r.consumed + 1⟩

/-! ## Process Supervisor: handle slot (lib.rs lines 8, 53-58, 148-157) -/

/-- The `tauri_plugin_shell::process::CommandChild` handle, reduced to an identity:
only which handle gets killed matters. -/
structure CommandChild where
  pid : Nat
deriving DecidableEq, Repr

/-- Storing the spawned child in the managed `SidecarChild` slot
(`*guard = Some(child)`): replaces whatever was there. -/
def store (_slot : Option CommandChild) (child : CommandChild) :
    Option CommandChild :=
  some child

/-- Result of the window-destroy handler: the slot afterwards and the
handles that received a `kill` (the kill result itself is discarded). -/
structure TerminateResult where
  slot : Option CommandChild
  kills : List CommandChild
deriving DecidableEq, Repr

/-- The `WindowEvent::Destroyed` handler: `guard.take()` empties the
slot; if it held a child, `child.kill()` is sent (result ignored). -/
def terminate (slot : Option CommandChild) : TerminateResult :=
  match slot with
  | some child => ⟨none, [child]⟩
  | none => ⟨none, []⟩

/-! ## Setup (lib.rs lines 34-145)

`setup` branches on `cfg!(debug_assertions)`: in a debug build it logs
and returns immediately (no spawn, no tasks).  In a release build it
creates the sidecar command and spawns it, `.expect(...)`-panicking on
either failure, stores the child, and spawns the relay and health-check
tasks.  The environment supplies whether `shell().sidecar(...)` and
`spawn()` succeed. -/

/-- A constructed (not yet spawned) sidecar command. -/
structure SidecarCommand where
  name : String
deriving DecidableEq, Repr

/-- Outcomes the process environment supplies to `setup`:
`sidecarCmd` is the result of `app.shell().sidecar("brian-backend")`
(`none` = error, e.g. the bundled executable cannot be found), and
`spawnResult c` the result of `c.spawn()` (`none` = spawn failure;
`some (events, child)` = the event receiver and the live handle). -/
structure SpawnEnv where
  sidecarCmd : Option SidecarCommand
  spawnResult : SidecarCommand → Option (List CommandEvent × CommandChild)

/-- A computation that either completes or panics the whole process with
a diagnostic message (Rust `.expect`). -/
inductive PanicOr (α : Type)
  | panicked (msg : String)
  | ok (a : α)
deriving DecidableEq, Repr

/-- Lines 46-51 of `setup`, named `spawn_backend` after the contract in the spec: create the sidecar command
and spawn it, panicking with the corresponding `.expect` message on
either failure. -/
def spawn_backend (env : SpawnEnv) :
    PanicOr (List CommandEvent × CommandChild) :=
  match env.sidecarCmd with
  | none => .panicked "failed to create brian-backend sidecar command"
  | some cmd =>
    match env.spawnResult cmd with
    | none => .panicked "failed to spawn brian-backend sidecar"
    | some r => .ok r

/-- What `setup` has done by the time it returns `Ok(())`: the state of
the managed handle slot, whether the relay and health-check tasks were
spawned, and the notifications emitted by `setup` itself (always none —
only the spawned tasks emit). -/
structure SetupResult where
  slot : Option CommandChild
  relayStarted : Bool
  proberStarted : Bool
  notifs : List Notif
deriving DecidableEq, Repr

/-- The `setup` closure (lib.rs lines 34-145).  `debugAssertions` is the
compile-time `cfg!(debug_assertions)` flag. -/
def setup (debugAssertions : Bool) (env : SpawnEnv) : PanicOr SetupResult :=
  if debugAssertions then
    .ok { slot := none, relayStarted := false, proberStarted := false,
          notifs := [] }
  else
    match spawn_backend env with
    | .panicked msg => .panicked msg
    | .ok (_events, child) =>
      .ok { slot := store none child, relayStarted := true,
            proberStarted := true, notifs := [] }

/-! ## Concrete traces and environments used by witness theorems -/

/-- Concrete port trace for the C1 witness. -/
def portAtW1 : Nat → Nat := fun n => 9090 + n

/-- Concrete probe outcomes for the C1 witness: transport errors on
attempts 1 and 2, a 200 response on attempt 3. -/
def outcomeW1 : Nat → Except String HttpResponse := fun n =>
  if n = 3 then .ok ⟨200⟩ else .error "connection refused"

/-- Concrete probe outcomes for the C2 witness: every attempt gets a 503
response. -/
def outcomeW2 : Nat → Except String HttpResponse := fun _ => .ok ⟨503⟩

/-- Concrete port trace for the C7 witness: the port file holds 8080 at
attempt 1 and 9091 from attempt 2 on. -/
def portAtW7 : Nat → Nat := fun n => if n = 1 then 8080 else 9091

/-- A decode function for witnesses: each byte as one character (agrees
with `String::from_utf8_lossy` on ASCII input). -/
def asciiDecode : List Nat → String := fun bytes =>
  String.mk (bytes.map Char.ofNat)


/-! ## Sanity examples for the resolver -/

example : read_backend_port ⟨true, some "  9091\n".data⟩ = 9091 := by decide
example : read_backend_port ⟨true, none⟩ = 8080 := by decide
example : read_backend_port ⟨false, some "9091".data⟩ = 8080 := by decide
example : read_backend_port ⟨true, some "garbage".data⟩ = 8080 := by decide
example : read_backend_port ⟨true, some "70000".data⟩ = 8080 := by decide
example : read_backend_port ⟨true, some "-1".data⟩ = 8080 := by decide
example : read_backend_port ⟨true, some "+80".data⟩ = 80 := by decide

/-! ## Sanity examples for the prober -/

example :
    runHealthCheck (fun _ => 8080) (fun _ => .ok ⟨200⟩) =
      ⟨[⟨8080, "http://127.0.0.1:8080/health"⟩], 0, [.ready 8080]⟩ := by
  decide

example :
    (runHealthCheck (fun _ => 8080) (fun _ => .error "refused")).notifs =
      [.error "backend health check failed after 30 retries"] := by
  decide

example :
    (runHealthCheck (fun _ => 8080) (fun _ => .error "refused")).attempts.length
      = 30 := by
  decide

example :
    (runHealthCheck (fun _ => 8080)
        (fun n => if n = 3 then .ok ⟨204⟩ else .error "refused")) =
      ⟨[⟨8080, "http://127.0.0.1:8080/health"⟩,
        ⟨8080, "http://127.0.0.1:8080/health"⟩,
        ⟨8080, "http://127.0.0.1:8080/health"⟩], 2, [.ready 8080]⟩ := by
  decide

/-! ## Port Resolver theorems -/

/-- The function `stripSign` is the identity on a list whose head is not `+`. -/
theorem stripSign_of_ne (c : Char) (t : List Char) (h : c ≠ '+') :
    stripSign (c :: t) = c :: t := by
  unfold stripSign
  split
  next rest heq =>
    exact absurd (List.cons.injEq .. ▸ heq).1 h
  next => rfl

/-- A successful `u16` parse yields a value below 2^16. -/
theorem parseU16_lt {s : List Char} {v : Nat} (h : parseU16 s = some v) :
    v < 65536 := by
  simp only [parseU16] at h
  split at h
  · simp at h
  · split at h
    · split at h
      · injection h with h
        omega
      · simp at h
    · simp at h

/-- An all-digit string whose value does not fit in 16 bits fails to
parse as `u16`. -/
theorem parseU16_overflow (s : List Char) (hne : s ≠ [])
    (hd : ∀ c ∈ s, c.isDigit) (hv : 65536 ≤ digitsToNat s) :
    parseU16 s = none := by
  rcases s with _ | ⟨c, t⟩
  · exact absurd rfl hne
  · have hc : c.isDigit := hd c (List.mem_cons_self ..)
    have hplus : c ≠ '+' := by
      intro h
      rw [h] at hc
      simp [Char.isDigit] at hc
    have hall : (c :: t).all Char.isDigit = true := List.all_eq_true.mpr hd
    simp [parseU16, stripSign_of_ne c t hplus, hall]
    omega

/-- C3.  Port Resolver totality and defaults: `read_backend_port` always
returns a valid port value (never panics and the result fits in `u16`);
a missing or unreadable port file, an unresolved home directory, or
unparsable content each yield the default 8080; a file containing
`"  9091\n"` yields 9091. -/
theorem read_backend_port_total_and_defaults :
    (∀ fs : Fs, read_backend_port fs ≤ 65535) ∧
    (∀ fs : Fs, fs.portFileContent = none → read_backend_port fs = 8080) ∧
    (∀ fs : Fs, fs.homeDir = false → read_backend_port fs = 8080) ∧
    (∀ fs : Fs, ∀ s, fs.portFileContent = some s →
      parseU16 (trimChars s) = none → read_backend_port fs = 8080) ∧
    (∀ fs : Fs, fs.homeDir = true →
      fs.portFileContent = some "  9091\n".data →
      read_backend_port fs = 9091) := by
  refine ⟨?_, ?_, ?_, ?_, ?_⟩
  · intro fs
    rcases fs with ⟨home, content⟩
    cases home
    · simp [read_backend_port]
    · rcases content with _ | s
      · simp [read_backend_port]
      · rcases hp : parseU16 (trimChars s) with _ | v
        · simp [read_backend_port, hp]
        · have := parseU16_lt hp
          simp [read_backend_port, hp]
          omega
  · intro fs h
    unfold read_backend_port
    rw [h]
    cases fs.homeDir <;> simp
  · intro fs h
    unfold read_backend_port
    rw [h]
    simp
  · intro fs s hc hp
    unfold read_backend_port
    rw [hc]
    cases fs.homeDir
    · simp
    · simp [hp]
  · intro fs hh hc
    unfold read_backend_port
    rw [hh, hc]
    decide

/-- C3 witness: the theorem applied at concrete filesystem states. -/
theorem read_backend_port_total_and_defaults_witness :
    read_backend_port ⟨true, some "  9091\n".data⟩ = 9091 ∧
    read_backend_port ⟨true, none⟩ = 8080 ∧
    read_backend_port ⟨false, some "9091".data⟩ = 8080 ∧
    read_backend_port ⟨true, some "garbage".data⟩ = 8080 :=
  ⟨read_backend_port_total_and_defaults.2.2.2.2 ⟨true, _⟩ rfl rfl,
   read_backend_port_total_and_defaults.2.1 ⟨true, none⟩ rfl,
   read_backend_port_total_and_defaults.2.2.1 ⟨false, _⟩ rfl,
   read_backend_port_total_and_defaults.2.2.2.1 ⟨true, _⟩ _ rfl (by decide)⟩

/-- C9.  A port file whose content is numeric but does not fit in an
unsigned 16-bit integer degrades to the default 8080, because the `u16`
parse fails: generally for any all-digit content of value at least 65536,
and concretely for `"70000"` and `"-1"`. -/
theorem read_backend_port_out_of_range :
    (∀ fs : Fs, ∀ s, fs.homeDir = true → fs.portFileContent = some s →
      trimChars s ≠ [] → (∀ c ∈ trimChars s, c.isDigit) →
      65536 ≤ digitsToNat (trimChars s) → read_backend_port fs = 8080) ∧
    (∀ fs : Fs, fs.homeDir = true → fs.portFileContent = some "70000".data →
      read_backend_port fs = 8080) ∧
    (∀ fs : Fs, fs.homeDir = true → fs.portFileContent = some "-1".data →
      read_backend_port fs = 8080) := by
  refine ⟨?_, ?_, ?_⟩
  · intro fs s hh hc hne hd hv
    unfold read_backend_port
    rw [hh, hc]
    simp [parseU16_overflow (trimChars s) hne hd hv]
  · intro fs hh hc
    unfold read_backend_port
    rw [hh, hc]
    decide
  · intro fs hh hc
    unfold read_backend_port
    rw [hh, hc]
    decide

/-- C9 witness: the theorem applied at concrete filesystem states. -/
theorem read_backend_port_out_of_range_witness :
    read_backend_port ⟨true, some "70000".data⟩ = 8080 ∧
    read_backend_port ⟨true, some "-1".data⟩ = 8080 ∧
    read_backend_port ⟨true, some "100000".data⟩ = 8080 :=
  ⟨read_backend_port_out_of_range.2.1 ⟨true, _⟩ rfl rfl,
   read_backend_port_out_of_range.2.2 ⟨true, _⟩ rfl rfl,
   read_backend_port_out_of_range.1 ⟨true, _⟩ _ rfl rfl (by decide)
     (by decide) (by decide)⟩

/-! ## Health Prober theorems -/

/-- Unfolding one failed attempt of the loop: a failed probe records the
attempt, sleeps once, and recurses on the next attempt. -/
theorem healthAttempts_fail_step (portAt : Nat → Nat)
    (outcome : Nat → Except String HttpResponse) (attempt fuel : Nat)
    (hf : probeFails outcome attempt) :
    healthAttempts portAt outcome attempt (fuel + 1) =
      { attempts := ⟨portAt attempt, healthUrl (portAt attempt)⟩ ::
          (healthAttempts portAt outcome (attempt + 1) fuel).attempts,
        sleeps := (healthAttempts portAt outcome (attempt + 1) fuel).sleeps + 1,
        notifs := (healthAttempts portAt outcome (attempt + 1) fuel).notifs } := by
  rcases ho : outcome attempt with e | resp
  · simp [healthAttempts, ho]
  · have hns := hf resp ho
    simp [healthAttempts, ho, hns]

/-- Unfolding one successful attempt: a 2xx response records the attempt,
emits `backend-ready` with the port probed on it, and returns. -/
theorem healthAttempts_success_step (portAt : Nat → Nat)
    (outcome : Nat → Except String HttpResponse) (attempt fuel : Nat)
    (resp : HttpResponse) (ho : outcome attempt = .ok resp)
    (hs : isSuccessStatus resp.status = true) :
    healthAttempts portAt outcome attempt (fuel + 1) =
      { attempts := [⟨portAt attempt, healthUrl (portAt attempt)⟩],
        sleeps := 0, notifs := [.ready (portAt attempt)] } := by
  simp [healthAttempts, ho, hs]

/-- C1.  Health Prober success: when the probe fails on attempts 1 and 2
and returns a 2xx status on attempt 3, the prober emits exactly one
notification — `Ready` carrying the port resolved at attempt 3 — after
exactly 3 probe attempts and exactly 2 inter-attempt delays (no `Error`
notification is emitted). -/
theorem prober_ready_on_third_attempt (portAt : Nat → Nat)
    (outcome : Nat → Except String HttpResponse)
    (h1 : probeFails outcome 1) (h2 : probeFails outcome 2)
    (resp : HttpResponse) (h3 : outcome 3 = .ok resp)
    (hs : isSuccessStatus resp.status = true) :
    (runHealthCheck portAt outcome).notifs = [.ready (portAt 3)] ∧
    (runHealthCheck portAt outcome).attempts.length = 3 ∧
    (runHealthCheck portAt outcome).sleeps = 2 := by
  unfold runHealthCheck MAX_RETRIES
  rw [show (30 : Nat) = 29 + 1 from rfl,
    healthAttempts_fail_step portAt outcome 1 29 h1,
    show (29 : Nat) = 28 + 1 from rfl,
    healthAttempts_fail_step portAt outcome (1 + 1) 28 h2,
    show (28 : Nat) = 27 + 1 from rfl,
    healthAttempts_success_step portAt outcome (1 + 1 + 1) 27 resp h3 hs]
  exact ⟨rfl, rfl, rfl⟩



/-- C1 witness: the theorem applied to a concrete outcome trace. -/
theorem prober_ready_on_third_attempt_witness :
    (runHealthCheck portAtW1 outcomeW1).notifs = [.ready 9093] ∧
    (runHealthCheck portAtW1 outcomeW1).attempts.length = 3 ∧
    (runHealthCheck portAtW1 outcomeW1).sleeps = 2 :=
  prober_ready_on_third_attempt portAtW1 outcomeW1
    (fun resp h => by simp [outcomeW1] at h)
    (fun resp h => by simp [outcomeW1] at h)
    ⟨200⟩ rfl rfl

/-- When every attempt in the remaining window fails, the loop exhausts
its fuel: one attempt and one sleep per unit of fuel, and the single
failure notification from after the loop. -/
theorem healthAttempts_all_fail (portAt : Nat → Nat)
    (outcome : Nat → Except String HttpResponse) :
    ∀ fuel attempt,
      (∀ k, attempt ≤ k → k < attempt + fuel → probeFails outcome k) →
      (healthAttempts portAt outcome attempt fuel).notifs =
          [.error "backend health check failed after 30 retries"] ∧
      (healthAttempts portAt outcome attempt fuel).attempts.length = fuel ∧
      (healthAttempts portAt outcome attempt fuel).sleeps = fuel := by
  intro fuel
  induction fuel with
  | zero => exact fun attempt _ => ⟨rfl, rfl, rfl⟩
  | succ n ih =>
    intro attempt h
    have hf : probeFails outcome attempt := h attempt le_rfl (by omega)
    rw [healthAttempts_fail_step portAt outcome attempt n hf]
    have hr := ih (attempt + 1) (fun k hk1 hk2 => h k (by omega) (by omega))
    exact ⟨hr.1, by simp [hr.2.1], by simp [hr.2.2]⟩

/-- C2.  Health Prober bound: when every probe in the 30-attempt window
fails (non-2xx status or transport error), the prober performs exactly 30
attempts, emits exactly one notification — the `Error` with message
`"backend health check failed after 30 retries"` — and emits no `Ready`
notification; the attempt trace ends there. -/
theorem prober_all_fail_bound (portAt : Nat → Nat)
    (outcome : Nat → Except String HttpResponse)
    (h : ∀ n, 1 ≤ n → n ≤ 30 → probeFails outcome n) :
    (runHealthCheck portAt outcome).notifs =
        [.error "backend health check failed after 30 retries"] ∧
    (runHealthCheck portAt outcome).attempts.length = 30 ∧
    ∀ p, Notif.ready p ∉ (runHealthCheck portAt outcome).notifs := by
  unfold runHealthCheck MAX_RETRIES
  have hr := healthAttempts_all_fail portAt outcome 30 1
    (fun k hk1 hk2 => h k hk1 (by omega))
  refine ⟨hr.1, hr.2.1, ?_⟩
  intro p hp
  rw [hr.1] at hp
  simp at hp


/-- C2 witness: the theorem applied to an always-failing outcome trace. -/
theorem prober_all_fail_bound_witness :
    (runHealthCheck (fun _ => 8080) outcomeW2).notifs =
        [.error "backend health check failed after 30 retries"] ∧
    (runHealthCheck (fun _ => 8080) outcomeW2).attempts.length = 30 ∧
    ∀ p, Notif.ready p ∉ (runHealthCheck (fun _ => 8080) outcomeW2).notifs :=
  prober_all_fail_bound (fun _ => 8080) outcomeW2
    (fun n _ _ resp hr => by
      injection hr with hr
      rw [← hr]
      decide)

/-- Each recorded attempt probes the port re-resolved at its own index:
the `i`-th attempt of the window starting at `attempt` uses
`portAt (attempt + i)` and the URL built from it. -/
theorem healthAttempts_getElem (portAt : Nat → Nat)
    (outcome : Nat → Except String HttpResponse) :
    ∀ fuel attempt i,
      i < (healthAttempts portAt outcome attempt fuel).attempts.length →
      (healthAttempts portAt outcome attempt fuel).attempts.get? i =
        some ⟨portAt (attempt + i), healthUrl (portAt (attempt + i))⟩ := by
  intro fuel
  induction fuel with
  | zero =>
    intro attempt i h
    simp [healthAttempts] at h
  | succ n ih =>
    intro attempt i h
    rcases ho : outcome attempt with e | resp
    · rw [healthAttempts_fail_step portAt outcome attempt n
        (fun r hr => by rw [ho] at hr; cases hr)] at h ⊢
      match i with
      | 0 => rfl
      | j + 1 =>
        have hj : j < (healthAttempts portAt outcome (attempt + 1) n).attempts.length := by
          simpa using h
        have := ih (attempt + 1) j hj
        rw [show attempt + (j + 1) = attempt + 1 + j from by omega]
        simpa using this
    · rcases hss : isSuccessStatus resp.status with _ | _
      · rw [healthAttempts_fail_step portAt outcome attempt n
          (fun r hr => by rw [ho] at hr; cases hr; exact hss)] at h ⊢
        match i with
        | 0 => rfl
        | j + 1 =>
          have hj : j < (healthAttempts portAt outcome (attempt + 1) n).attempts.length := by
            simpa using h
          have := ih (attempt + 1) j hj
          rw [show attempt + (j + 1) = attempt + 1 + j from by omega]
          simpa using this
      · rw [healthAttempts_success_step portAt outcome attempt n resp ho hss] at h ⊢
        match i with
        | 0 => rfl
        | j + 1 => simp at h

/-- C7.  Port-change tolerance: the port is re-resolved before every
probe, so the `i`-th attempt (0-based trace index, 1-based attempt
number `i + 1`) probes exactly the port read at attempt `i + 1`, with the
URL built from that port. -/
theorem prober_probes_current_port (portAt : Nat → Nat)
    (outcome : Nat → Except String HttpResponse) (i : Nat)
    (h : i < (runHealthCheck portAt outcome).attempts.length) :
    (runHealthCheck portAt outcome).attempts.get? i =
      some ⟨portAt (i + 1), healthUrl (portAt (i + 1))⟩ := by
  unfold runHealthCheck MAX_RETRIES at h ⊢
  have := healthAttempts_getElem portAt outcome 30 1 i h
  rwa [show 1 + i = i + 1 from by omega] at this


/-- C7 witness: with the port file changing from 8080 to 9091 between
attempts 1 and 2 and an always-failing probe, attempt 2 probes 9091. -/
theorem prober_probes_current_port_witness :
    (runHealthCheck portAtW7 (fun _ => .error "refused")).attempts.get? 1 =
      some ⟨9091, healthUrl 9091⟩ :=
  prober_probes_current_port portAtW7 (fun _ => .error "refused") 1 (by decide)

/-! ## Output Relay theorems -/

/-- C5.  Relay termination behaviour: on a feed whose first `Terminated`
event follows a terminated-free prefix, the relay consumes exactly the
prefix and that event (everything after the first `Terminated` is
ignored: the run equals the run on the truncated feed), emits exactly one
`Error` notification with message
`"sidecar process terminated unexpectedly"`, and its log is the log of that
prefix, in arrival order, followed by the termination warning. -/
theorem relay_stops_at_first_terminated (decode : List Nat → String)
    (pre : List CommandEvent) (status : TerminatedPayload)
    (post : List CommandEvent)
    (h : ∀ e ∈ pre, e.isTerminated = false) :
    relay decode (pre ++ .terminated status :: post) =
        relay decode (pre ++ [.terminated status]) ∧
    (relay decode (pre ++ .terminated status :: post)).notifs =
        [.error "sidecar process terminated unexpectedly"] ∧
    (relay decode (pre ++ .terminated status :: post)).consumed =
        pre.length + 1 ∧
    (relay decode (pre ++ .terminated status :: post)).logs =
        (relay decode pre).logs ++
          [.warn ("[brian-backend] process terminated with status: " ++
            fmtTerminated status)] := by
  induction pre with
  | nil => exact ⟨rfl, rfl, rfl, rfl⟩
  | cons e t ih =>
    have he : e.isTerminated = false := h e (List.mem_cons_self ..)
    obtain ⟨h1, h2, h3, h4⟩ := ih fun x hx => h x (List.mem_cons_of_mem _ hx)
    rw [h1] at h2 h3 h4
    cases e with
    | terminated st => simp [CommandEvent.isTerminated] at he
    | stdout l => refine ⟨?_, ?_, ?_, ?_⟩ <;> simp [relay, h1, h2, h3, h4]
    | stderr l => refine ⟨?_, ?_, ?_, ?_⟩ <;> simp [relay, h1, h2, h3, h4]
    | error m => refine ⟨?_, ?_, ?_, ?_⟩ <;> simp [relay, h1, h2, h3, h4]
    | other => refine ⟨?_, ?_, ?_, ?_⟩ <;> simp [relay, h1, h2, h3, h4]


/-- C5 witness: the theorem applied to the feed
`[Stdout "a", Stderr "b", Terminated 0, Stdout "c"]`. -/
theorem relay_stops_at_first_terminated_witness :
    (relay asciiDecode ([.stdout [97], .stderr [98]] ++
        .terminated ⟨some 0, none⟩ :: [.stdout [99]])).notifs =
      [.error "sidecar process terminated unexpectedly"] ∧
    (relay asciiDecode ([.stdout [97], .stderr [98]] ++
        .terminated ⟨some 0, none⟩ :: [.stdout [99]])).consumed = 3 :=
  ⟨(relay_stops_at_first_terminated asciiDecode [.stdout [97], .stderr [98]]
      ⟨some 0, none⟩ [.stdout [99]] (by decide)).2.1,
   (relay_stops_at_first_terminated asciiDecode [.stdout [97], .stderr [98]]
      ⟨some 0, none⟩ [.stdout [99]] (by decide)).2.2.1⟩

/-- C6.  Spawn-error events (`CommandEvent::Error`) are non-fatal: such
an event is logged at error level, emits no notification, and the rest of
the feed is still processed (the run is the one-step composition with the
run on the rest); likewise `Stdout` and `Stderr` lines are decoded and
logged (at info and error level) without emitting any notification and
without stopping the relay. -/
theorem relay_spawn_error_nonfatal (decode : List Nat → String) :
    (∀ msg rest, relay decode (.error msg :: rest) =
      ⟨.error ("[brian-backend] error: " ++ msg) :: (relay decode rest).logs,
        (relay decode rest).notifs, (relay decode rest).consumed + 1⟩) ∧
    (∀ line rest, relay decode (.stdout line :: rest) =
      ⟨.info ("[brian-backend] " ++ decode line) :: (relay decode rest).logs,
        (relay decode rest).notifs, (relay decode rest).consumed + 1⟩) ∧
    (∀ line rest, relay decode (.stderr line :: rest) =
      ⟨.error ("[brian-backend] " ++ decode line) :: (relay decode rest).logs,
        (relay decode rest).notifs, (relay decode rest).consumed + 1⟩) :=
  ⟨fun _ _ => rfl, fun _ _ => rfl, fun _ _ => rfl⟩

/-! ## Process Supervisor theorems -/

/-- C4.  Terminate idempotence: after `store`, one `terminate` empties
the slot and kills exactly the stored handle; a second `terminate` on the
resulting slot performs no kill and leaves the slot empty; `terminate` on
an empty slot is a no-op. -/
theorem store_terminate_idempotent :
    (∀ (slot : Option CommandChild) (child : CommandChild),
      terminate (store slot child) = ⟨none, [child]⟩) ∧
    (∀ (slot : Option CommandChild) (child : CommandChild),
      terminate (terminate (store slot child)).slot = ⟨none, []⟩) ∧
    terminate none = ⟨none, []⟩ :=
  ⟨fun _ _ => rfl, fun _ _ => rfl, rfl⟩

/-! ## Setup theorems -/

/-- C8.  Fatal spawn failure: in a production (non-debug) build, if the
sidecar command cannot be created or the spawn call fails, `setup` panics
with the corresponding `.expect` diagnostic — it does not return a value
(so nothing is retried and no notification is emitted). -/
theorem spawn_failure_panics :
    (∀ env : SpawnEnv, env.sidecarCmd = none →
      spawn_backend env =
          .panicked "failed to create brian-backend sidecar command" ∧
      setup false env =
          .panicked "failed to create brian-backend sidecar command") ∧
    (∀ (env : SpawnEnv) (cmd : SidecarCommand), env.sidecarCmd = some cmd →
      env.spawnResult cmd = none →
      spawn_backend env = .panicked "failed to spawn brian-backend sidecar" ∧
      setup false env =
          .panicked "failed to spawn brian-backend sidecar") := by
  refine ⟨?_, ?_⟩
  · intro env h
    exact ⟨by simp [spawn_backend, h], by simp [setup, spawn_backend, h]⟩
  · intro env cmd hc hs
    exact ⟨by simp [spawn_backend, hc, hs],
      by simp [setup, spawn_backend, hc, hs]⟩

/-- C8 witness: the theorem applied to concrete environments where
command creation (resp. spawning) fails. -/
theorem spawn_failure_panics_witness :
    spawn_backend ⟨none, fun _ => none⟩ =
        .panicked "failed to create brian-backend sidecar command" ∧
    setup false ⟨some ⟨"brian-backend"⟩, fun _ => none⟩ =
        .panicked "failed to spawn brian-backend sidecar" :=
  ⟨(spawn_failure_panics.1 ⟨none, fun _ => none⟩ rfl).1,
   (spawn_failure_panics.2 ⟨some ⟨"brian-backend"⟩, fun _ => none⟩
      ⟨"brian-backend"⟩ rfl rfl).2⟩

/-- C10.  In a debug build, `setup` returns right after logging: no
sidecar is spawned, neither the relay nor the health-check task is
started, no notification is emitted, and the handle slot stays `none` —
so `terminate` on window destroy performs no kill. -/
theorem setup_debug_skips_spawn :
    (∀ env : SpawnEnv, setup true env =
      .ok { slot := none, relayStarted := false, proberStarted := false,
            notifs := [] }) ∧
    terminate none = ⟨none, []⟩ :=
  ⟨fun _ => rfl, rfl⟩

end Brian
